import Mathlib

/-!
Verification of the vectorization and preference-learning subsystem of the
glean feed reader (backend/packages/vector, backend/apps/worker,
backend/apps/api/routers/admin.py, backend/packages/core).

The Python source is shallowly embedded: pure numeric code is translated to
functions over `ℚ` (Python floats are modelled as exact rationals), the
normalization step of the preference service (which takes a square root) is
modelled as a relation over `ℝ`, stateful services become explicit
state-passing functions, and fallible calls return `Except`.
-/

namespace Glean

/-! ## Preference configuration (glean_vector/config.py, PreferenceConfig) -/

/-- Embedded from `PreferenceConfig` in `glean_vector/config.py`: the tunables
the preference and score services read. -/
structure PreferenceConfig where
  default_score : ℚ
  confidence_threshold : ℚ
  like_weight : ℚ
  bookmark_weight : ℚ
  source_boost_max : ℚ
  author_boost_max : ℚ
deriving DecidableEq

/-- The default values of `PreferenceConfig` (`glean_vector/config.py`). -/
def preference_config : PreferenceConfig :=
  { default_score := 50
    confidence_threshold := 10
    like_weight := 1
    bookmark_weight := 7/10
    source_boost_max := 5
    author_boost_max := 3 }

/-! ## Preference service: moving-average core
(`preference_service.py`, `_update_preference_vector_locked`, lines 159-177:
the computation of `new_embedding`/`new_count` before normalization). -/

/-! ## Score service (`score_service.py`) -/

/-- Embedded from `np.dot` as used in `calculate_score`: the dot product of
two vectors. -/
def dotQ (a b : List ℚ) : ℚ := (List.zipWith (· * ·) a b).sum

/-- Embedded from `_calc_affinity_boost` (`score_service.py` lines 151-170).
`pos`/`neg` are `affinity.get("positive", 0)` and `affinity.get("negative", 0)`:
a feed or author missing from the affinity map contributes `(0, 0)`. -/
def calc_affinity_boost (pos neg max_boost : ℚ) : ℚ :=
  let total := pos + neg
  if total = 0 then 0 else ((pos - neg) / total) * max_boost

/-- Embedded from `calculate_score` lines 98-112 and 136-138 of
`score_service.py`: raw similarity difference, confidence from the total
sample count, the linear blend toward the neutral 50, the two affinity
boosts added, and the clamp to `[0, 100]`.  This is the entry score before
Python's final `round(final_score, 1)`. -/
def blended_clamped_score (cfg : PreferenceConfig)
    (positive_sim negative_sim total_samples source_boost author_boost : ℚ) : ℚ :=
  let raw_score := positive_sim - negative_sim
  let confidence := min 1 (total_samples / cfg.confidence_threshold)
  let base_score := (raw_score + 1) / 2 * 100
  let score_with_confidence := base_score * confidence + 50 * (1 - confidence)
  let final_score := score_with_confidence + source_boost + author_boost
  max 0 (min 100 final_score)

/-- Written from the spec's words (§4.6): the blended score before clamping,
`base * confidence + 50 * (1 - confidence)` with
`base = (raw + 1) / 2 * 100` and `confidence = min(1, total / threshold)`.
Used to phrase the no-clamping hypotheses of the score-monotonicity claim. -/
def specBlendedScore (cfg : PreferenceConfig) (p n t : ℚ) : ℚ :=
  let confidence := min 1 (t / cfg.confidence_threshold)
  ((p - n + 1) / 2 * 100) * confidence + 50 * (1 - confidence)

/-- Embedded from Python's `round(x, 1)` on the exact rational value: round to
the nearest tenth, ties to the even tenth (banker's rounding). -/
def roundHalfEven (x : ℚ) : ℤ :=
  let f := ⌊x⌋
  let frac := x - f
  if frac < 1/2 then f
  else if 1/2 < frac then f + 1
  else if f % 2 = 0 then f else f + 1

/-- Round a score to one decimal place, as `round(final_score, 1)` does. -/
def round1 (x : ℚ) : ℚ := (roundHalfEven (x * 10) : ℚ) / 10

/-- A stored preference vector row as `get_user_preferences` returns it
(embedding and sample count; the timestamp is irrelevant here). -/
structure PrefVecQ where
  embedding : List ℚ
  sample_count : ℚ
deriving DecidableEq

/-- The user's two preference rows, keyed by polarity. -/
structure UserPrefsQ where
  positive : Option PrefVecQ
  negative : Option PrefVecQ
deriving DecidableEq

/-- The entry metadata `calculate_score` reads: feed id and optional author. -/
structure EntryInfo where
  feed_id : List Char
  author : Option (List Char)
deriving DecidableEq

/-- One `{positive, negative}` cell of an affinity map. -/
structure AffinityCell where
  positive : ℚ
  negative : ℚ
deriving DecidableEq

/-- Embedded from the `UserPreferenceStats` row (`glean_database.models`):
weighted totals and the source/author affinity maps, maps rendered as
association lists. -/
structure StatsRow where
  positive_count : ℚ
  negative_count : ℚ
  source_affinity : List (List Char × AffinityCell)
  author_affinity : List (List Char × AffinityCell)
deriving DecidableEq

/-- Association-list lookup, modelling Python `dict.get(key, default)` with
default `\x7b\x7d` (which `calc_affinity_boost` reads as `(0, 0)`). -/
def affGet (m : List (List Char × AffinityCell)) (k : List Char) : AffinityCell :=
  match m.find? (fun p => p.1 = k) with
  | some p => p.2
  | none => ⟨0, 0⟩

/-- Embedded from `calculate_score` (`score_service.py` lines 38-149).
External reads become arguments: the Milvus entry embedding, the relational
entry row, the Milvus preference rows and the stats row.  Returns the score
together with the early-return reason code (`none` when fully scored). -/
def calculate_score (cfg : PreferenceConfig) (embedding : Option (List ℚ))
    (entry : Option EntryInfo) (prefs : UserPrefsQ) (stats : Option StatsRow) :
    ℚ × Option (List Char) :=
  match embedding with
  | none => (cfg.default_score, some "no_embedding".toList)
  | some emb =>
    match entry with
    | none => (cfg.default_score, some "entry_not_found".toList)
    | some entry =>
      if prefs.positive = none ∧ prefs.negative = none then
        (cfg.default_score, some "no_preference_model".toList)
      else
        let positive_sim := match prefs.positive with
          | some p => dotQ emb p.embedding
          | none => 0
        let negative_sim := match prefs.negative with
          | some n => dotQ emb n.embedding
          | none => 0
        let total_samples := (match prefs.positive with
          | some p => p.sample_count
          | none => 0) + (match prefs.negative with
          | some n => n.sample_count
          | none => 0)
        let source_boost := match stats with
          | none => 0
          | some st =>
              calc_affinity_boost (affGet st.source_affinity entry.feed_id).positive
                (affGet st.source_affinity entry.feed_id).negative cfg.source_boost_max
        let author_boost := match stats, entry.author with
          | some st, some a =>
              calc_affinity_boost (affGet st.author_affinity a).positive
                (affGet st.author_affinity a).negative cfg.author_boost_max
          | _, _ => 0
        (round1 (blended_clamped_score cfg positive_sim negative_sim total_samples
            source_boost author_boost), none)

/-! ## Vectorization status, circuit breaker and rebuild completion
(`glean_core/schemas/config.py`, `glean_core/services/typed_config_service.py`,
`glean_worker/tasks/embedding_worker.py`, `glean_api/routers/admin.py`). -/

/-- Embedded from `VectorizationStatus` (`glean_core/schemas/config.py`). -/
inductive VectorizationStatus
  | disabled
  | idle
  | validating
  | rebuilding
  | error
deriving DecidableEq

/-- The fields of the embedding configuration that the circuit breaker and
the status read touch (`EmbeddingConfig` in `glean_core/schemas/config.py`). -/
structure EmbeddingState where
  status : VectorizationStatus
  error_count : ℕ
  last_error : Option (List Char)
  rebuild_id : Option (List Char)
deriving DecidableEq

/-- Python truthiness of an optional string: `if error:` is true exactly for a
present, non-empty string. -/
def optStrTruthy : Option (List Char) → Bool
  | some (_ :: _) => true
  | _ => false

/-- Embedded from `TypedConfigService.set_embedding_status`
(`typed_config_service.py` lines 231-258): with a truthy error the status and
error message are stored and `error_count` is incremented; setting `idle`
without an error clears `last_error` and resets `error_count`; any other
status is stored alone. -/
def set_embedding_status (cfg : EmbeddingState) (status : VectorizationStatus)
    (error : Option (List Char)) : EmbeddingState :=
  if optStrTruthy error then
    { cfg with status := status, last_error := error, error_count := cfg.error_count + 1 }
  else if status = VectorizationStatus.idle then
    { cfg with status := status, last_error := none, error_count := 0 }
  else
    { cfg with status := status }

/-- Embedded from `CONSECUTIVE_FAILURES_THRESHOLD` in
`glean_worker/tasks/embedding_worker.py`. -/
def CONSECUTIVE_FAILURES_THRESHOLD : ℕ := 5

/-- The message `"Circuit breaker: " + str(error)` built at the trip. -/
def circuitBreakerMsg (error : List Char) : List Char :=
  "Circuit breaker: ".toList ++ error

/-- Embedded from `_handle_embedding_error` (`embedding_worker.py` lines
62-82): increment the consecutive-failure count; at the threshold call
`set_embedding_status("error", ...)`, otherwise store the new count only. -/
def handle_embedding_error (cfg : EmbeddingState) (error : List Char) : EmbeddingState :=
  let new_error_count := cfg.error_count + 1
  if CONSECUTIVE_FAILURES_THRESHOLD ≤ new_error_count then
    set_embedding_status cfg VectorizationStatus.error (some (circuitBreakerMsg error))
  else
    { cfg with error_count := new_error_count }

/-- Embedded from `_reset_error_count` (`embedding_worker.py` lines 85-91):
a successful operation zeroes a positive failure count. -/
def reset_error_count (cfg : EmbeddingState) : EmbeddingState :=
  if 0 < cfg.error_count then { cfg with error_count := 0 } else cfg

/-- `k` consecutive failures handled one at a time, oldest first. -/
def iterateFailures (cfg : EmbeddingState) (error : List Char) : ℕ → EmbeddingState
  | 0 => cfg
  | n + 1 => handle_embedding_error (iterateFailures cfg error n) error

/-- Embedded from `TypedConfigService.complete_rebuild`
(`typed_config_service.py`): status to `idle`, rebuild bookkeeping and error
state cleared. -/
def complete_rebuild (cfg : EmbeddingState) : EmbeddingState :=
  { cfg with status := VectorizationStatus.idle, rebuild_id := none,
             error_count := 0, last_error := none }

/-- The progress counts `get_embedding_progress` reports over all articles. -/
structure ProgressCounts where
  total : ℕ
  pending : ℕ
  processing : ℕ
  done : ℕ
  failed : ℕ
deriving DecidableEq

/-- Embedded from `get_embedding_status` (`glean_api/routers/admin.py` lines
934-978), the auto-completion step: while `rebuilding`, when `total > 0` and
`done + failed >= total`, `complete_rebuild()` runs and the reported status is
`idle`; otherwise config and reported status are unchanged.  Returns the
stored config after the read together with the reported status. -/
def get_embedding_status_read (cfg : EmbeddingState) (progress : ProgressCounts) :
    EmbeddingState × VectorizationStatus :=
  if cfg.status = VectorizationStatus.rebuilding then
    if 0 < progress.total ∧ progress.total ≤ progress.done + progress.failed then
      (complete_rebuild cfg, VectorizationStatus.idle)
    else (cfg, cfg.status)
  else (cfg, cfg.status)

/-! ## Preference service: signal handling and normalization
(`preference_service.py`).  The stored vectors live in `ℝ` because the
normalization step divides by `np.linalg.norm`, a square root. -/

/-- Embedded from `PreferenceService.SIGNAL_WEIGHTS`
(`preference_service.py` lines 26-30). -/
def SIGNAL_WEIGHTS : List (List Char × ℚ) :=
  [("like".toList, 1), ("dislike".toList, -1), ("bookmark".toList, 7/10)]

/-- `self.SIGNAL_WEIGHTS[signal_type]` guarded by the membership test of
`handle_preference_signal` line 64. -/
def signalWeight (signal_type : List Char) : Option ℚ :=
  (SIGNAL_WEIGHTS.find? (fun p => decide (p.1 = signal_type))).map Prod.snd

/-- The squared Euclidean norm; `np.linalg.norm v = Real.sqrt (listNormSq v)`. -/
def listNormSq (v : List ℝ) : ℝ := (v.map (fun x => x * x)).sum

/-- The near-zero guard `1e-8` of `_update_preference_vector_locked` line 181. -/
noncomputable def NORM_EPS : ℝ := 1 / 10 ^ 8

/-- Embedded from `_update_preference_vector_locked` lines 159-177 of
`preference_service.py`: from the currently stored vector of the signal's
polarity (`none` when the user has no vector of that polarity yet) and the
article embedding, the pre-normalization `new_embedding` and `new_count`.
numpy's vector arithmetic is rendered componentwise:
`old_embedding * old_count + article * abs_weight` is a `zipWith`, the
division by `total_weight` a `map`. -/
noncomputable def update_pre_real (current : Option (List ℝ × ℝ))
    (article_embedding : List ℝ) (abs_weight : ℝ) : List ℝ × ℝ :=
  match current with
  | none =>
      (article_embedding.map (fun x => x * abs_weight), abs_weight)
  | some (old_embedding, old_count) =>
      let total_weight := old_count + abs_weight
      ((List.zipWith (fun o a => o * old_count + a * abs_weight)
          old_embedding article_embedding).map (fun x => x / total_weight),
        total_weight)

/-- Written from the spec's words (§4.5): the moving-average formula
`(v0*c0 + v1*|w|) / (c0 + |w|)` applied componentwise, paired with the new
count `c0 + |w|`.  Compared against `update_pre_real`. -/
noncomputable def specMovingAverage (v0 : List ℝ) (c0 : ℝ) (v1 : List ℝ) (w : ℝ) :
    List ℝ × ℝ :=
  (List.zipWith (fun a b => (a * c0 + b * |w|) / (c0 + |w|)) v0 v1, c0 + |w|)

/-- Embedded from `_update_preference_vector_locked`
(`preference_service.py` lines 141-191): the moving-average step of lines
159-177 followed by the normalization of lines 179-182 (`norm = 1e-8` guard).
The Milvus upsert of lines 184-191 stores the returned pair (embedding,
sample count). -/
noncomputable def update_preference_vector_locked (current : Option (List ℝ × ℝ))
    (article_embedding : List ℝ) (abs_weight : ℝ) : List ℝ × ℝ :=
  let pre := update_pre_real current article_embedding abs_weight
  let norm := Real.sqrt (listNormSq pre.1)
  if NORM_EPS < norm then (pre.1.map (fun x => x / norm), pre.2)
  else pre

/-- The user's stored preference rows in the `user_preferences` collection. -/
structure UserVectors where
  positive : Option (List ℝ × ℝ)
  negative : Option (List ℝ × ℝ)

/-- Embedded from `_update_preference_vector` (`preference_service.py` lines
93-139) minus the Redis lock (a concurrency device; the locked body runs as
one step here): pick the polarity from the weight's sign, take the absolute
weight, and run the locked update on that polarity's row. -/
noncomputable def update_preference_vector (vecs : UserVectors)
    (article_embedding : List ℝ) (weight : ℚ) : UserVectors :=
  let abs_weight : ℚ := |weight|
  if 0 < weight then
    let updated := update_preference_vector_locked vecs.positive article_embedding (abs_weight : ℝ)
    { vecs with positive := some updated }
  else
    let updated := update_preference_vector_locked vecs.negative article_embedding (abs_weight : ℝ)
    { vecs with negative := some updated }

/-- Association-list membership used by `_update_affinity_stats` for
`feed_id not in stats.source_affinity`. -/
def affHas (m : List (List Char × AffinityCell)) (k : List Char) : Bool :=
  (m.find? (fun p => decide (p.1 = k))).isSome

/-- One `affinity[key][polarity] += weight` step of `_update_affinity_stats`,
inserting the `(0, 0)` cell first when the key is new. -/
def affBump (m : List (List Char × AffinityCell)) (k : List Char)
    (is_positive : Bool) (weight : ℚ) : List (List Char × AffinityCell) :=
  let m := if affHas m k then m else m ++ [(k, ⟨0, 0⟩)]
  m.map (fun p =>
    if p.1 = k then
      (p.1, if is_positive then ⟨p.2.positive + weight, p.2.negative⟩
            else ⟨p.2.positive, p.2.negative + weight⟩)
    else p)

/-- Embedded from `_update_affinity_stats` (`preference_service.py` lines
193-252): create the stats row when absent, bump the polarity total, bump the
feed's cell, and bump the author's cell when the author string is truthy. -/
def update_affinity_stats (stats : Option StatsRow) (feed_id : List Char)
    (author : Option (List Char)) (is_positive : Bool) (weight : ℚ) : StatsRow :=
  let st := stats.getD ⟨0, 0, [], []⟩
  let st := if is_positive then { st with positive_count := st.positive_count + weight }
            else { st with negative_count := st.negative_count + weight }
  let st := { st with source_affinity := affBump st.source_affinity feed_id is_positive weight }
  match author with
  | some (c :: cs) =>
      { st with author_affinity := affBump st.author_affinity (c :: cs) is_positive weight }
  | _ => st

/-- The relational `Entry` fields `handle_preference_signal` reads. -/
structure EntryRowMeta where
  feed_id : List Char
  author : Option (List Char)

/-- The per-user state `handle_preference_signal` may touch: the Milvus
preference rows and the relational stats row. -/
structure PrefServiceState where
  vectors : UserVectors
  stats : Option StatsRow

/-- Embedded from `handle_preference_signal` (`preference_service.py` lines
51-91).  External reads become arguments: `entry_embedding` is
`milvus.get_entry_embedding(entry_id)` (the Python `if not embedding` also
treats an empty vector as absent), `entry` the relational row.  A `ValueError`
becomes `Except.error`. -/
noncomputable def handle_preference_signal (signal_type : List Char)
    (entry_embedding : Option (List ℝ)) (entry : Option EntryRowMeta)
    (st : PrefServiceState) : Except (List Char) PrefServiceState :=
  match signalWeight signal_type with
  | none => .error ("Invalid signal type: ".toList ++ signal_type)
  | some weight =>
    match entry_embedding with
    | none => .ok st
    | some [] => .ok st
    | some embedding =>
      match entry with
      | none => .ok st
      | some entry =>
          let vectors := update_preference_vector st.vectors embedding weight
          let stats := update_affinity_stats st.stats entry.feed_id entry.author
            (decide (0 < weight)) |weight|
          .ok { vectors := vectors, stats := stats }

/-! ## Milvus client: not-found detection, retry-once, filter escaping
(`milvus_client.py`). -/

/-- A `MilvusException` as the client inspects it: error code and message. -/
structure MilvusErr where
  code : ℤ
  msg : List Char
deriving DecidableEq

/-- Lowercasing used by `_is_collection_not_found_error`'s
`"collection not found" in str(e).lower()`. -/
def toLowerStr (s : List Char) : List Char := s.map Char.toLower

/-- Python's `needle in hay` on strings: `needle` occurs contiguously in
`hay`. -/
def isSubstring (needle : List Char) : List Char → Bool
  | [] => decide (needle = [])
  | c :: rest => needle.isPrefixOf (c :: rest) || isSubstring needle rest

/-- Embedded from `_is_collection_not_found_error` (`milvus_client.py` lines
435-449): code 100 or the phrase `collection not found` in the lowercased
message. -/
def is_collection_not_found_error (e : MilvusErr) : Bool :=
  decide (e.code = 100) || isSubstring ("collection not found".toList) (toLowerStr e.msg)

/-- What a mutating call surfaces: a propagated `MilvusException`, or the
`RuntimeError` raised when the refreshed collection handle is still absent. -/
inductive StoreFailure
  | milvus (e : MilvusErr)
  | runtimeMissing
deriving DecidableEq

/-- Embedded from `insert_entry_embedding` (`milvus_client.py` lines 479-537),
the insert attempt and its error handler (the preceding best-effort delete is
error-suppressed and does not affect the control flow).  `attempt1` and
`attempt2` are the store's responses to the first and the retried insert;
`has_collection_after_refresh` tells whether `_refresh_entries_collection`
found the collection.  Returns the surfaced outcome and how many insert
attempts were issued. -/
def insert_entry_embedding (attempt1 : Except MilvusErr Unit)
    (has_collection_after_refresh : Bool) (attempt2 : Except MilvusErr Unit) :
    Except StoreFailure Unit × ℕ :=
  match attempt1 with
  | .ok _ => (.ok (), 1)
  | .error e =>
    if is_collection_not_found_error e then
      if has_collection_after_refresh then
        match attempt2 with
        | .ok _ => (.ok (), 2)
        | .error e2 => (.error (.milvus e2), 2)
      else (.error .runtimeMissing, 1)
    else (.error (.milvus e), 1)

/-- Embedded from `upsert_user_preference` (`milvus_client.py` lines 638-689):
the same retry-once structure as the entry insert, against the preferences
collection. -/
def upsert_user_preference (attempt1 : Except MilvusErr Unit)
    (has_collection_after_refresh : Bool) (attempt2 : Except MilvusErr Unit) :
    Except StoreFailure Unit × ℕ :=
  match attempt1 with
  | .ok _ => (.ok (), 1)
  | .error e =>
    if is_collection_not_found_error e then
      if has_collection_after_refresh then
        match attempt2 with
        | .ok _ => (.ok (), 2)
        | .error e2 => (.error (.milvus e2), 2)
      else (.error .runtimeMissing, 1)
    else (.error (.milvus e), 1)

/-- Embedded from `delete_entry_embedding` (`milvus_client.py` lines 720-730):
a single delete call with no error handler around it. -/
def delete_entry_embedding (attempt1 : Except MilvusErr Unit) :
    Except StoreFailure Unit × ℕ :=
  match attempt1 with
  | .ok _ => (.ok (), 1)
  | .error e => (.error (.milvus e), 1)

/-- Embedded from `delete_user_preferences` (`milvus_client.py` lines
732-742): a single bulk delete call with no error handler around it. -/
def delete_user_preferences (attempt1 : Except MilvusErr Unit) :
    Except StoreFailure Unit × ℕ :=
  match attempt1 with
  | .ok _ => (.ok (), 1)
  | .error e => (.error (.milvus e), 1)

/-- Python `str.replace(old, new)` for a one-character pattern: substitute
every occurrence of the character. -/
def replaceChar (s : List Char) (c : Char) (new : List Char) : List Char :=
  s.flatMap (fun a => if a = c then new else [a])

/-- Embedded from `_escape_string` (`milvus_client.py` lines 38-50):
`s.replace(backslash, double backslash).replace(quote, backslash quote)`. -/
def escape_string (s : List Char) : List Char :=
  replaceChar (replaceChar s '\\' ['\\', '\\']) '"' ['\\', '"']

/-- Modelled from the spec (§4.1, §7): the Milvus filter-expression grammar's
string literal, which is external to this repository.  A double quote closes
the literal; a backslash escapes the following character; the parse returns
the literal's value and the unconsumed remainder. -/
def parseStringLiteral : List Char → Option (List Char × List Char)
  | [] => none
  | c :: rest =>
    if c = '"' then some ([], rest)
    else if c = '\\' then
      match rest with
      | [] => none
      | e :: rest2 => (parseStringLiteral rest2).map (fun p => (e :: p.1, p.2))
    else (parseStringLiteral rest).map (fun p => (c :: p.1, p.2))

/-- Embedded from `get_entry_embedding` (`milvus_client.py` line 553): the
filter text built around the escaped id. -/
def build_id_filter (entry_id : List Char) : List Char :=
  "id == \"".toList ++ escape_string entry_id ++ ['"']

/-- Modelled from the spec (§4.1): evaluation of an `id == "..."` filter
against one record.  `some b` when the expression is exactly one string
comparison on `id` (b tells whether the record's id equals the literal);
`none` when the expression has any further structure after the literal, i.e.
when a payload escaped the quotes. -/
def evalIdFilter (expr field_id : List Char) : Option Bool :=
  if expr.take 7 = "id == \"".toList then
    match parseStringLiteral (expr.drop 7) with
    | some (lit, []) => some (decide (field_id = lit))
    | _ => none
  else none

/-! ## Embedding service (`embedding_service.py`). -/

/-- Embedded from `Entry.embedding_status` (`glean_database.models`). -/
inductive EmbeddingStatus
  | pending
  | processing
  | done
  | failed
deriving DecidableEq

/-- The `Entry` fields `generate_embedding` reads and writes. -/
structure EntryRow where
  title : List Char
  content : Option (List Char)
  summary : Option (List Char)
  feed_id : List Char
  author : Option (List Char)
  embedding_status : EmbeddingStatus
  embedding_error : Option (List Char)
  word_count : ℕ
deriving DecidableEq

/-- ASCII whitespace as Python's regex `\s` classifies it. -/
def isPySpace (c : Char) : Bool :=
  c = ' ' || c = '\t' || c = '\n' || c = '\r' || c = '\x0b' || c = '\x0c'

/-- The scan of `re.sub(r"<[^>]+>", "", text)` after an opening `<`: at least
one non-`>` character followed by `>`; returns the remainder after the tag,
or `none` when no such tag starts here. -/
def skipToGt : List Char → Option (List Char)
  | [] => none
  | c :: rest => if c = '>' then some rest else skipToGt rest

/-- Whether `<` at this point opens a `<[^>]+>` match: the next character must
not be `>`, and a `>` must follow later. -/
def takeTag : List Char → Option (List Char)
  | [] => none
  | c :: rest => if c = '>' then none else skipToGt rest

theorem skipToGt_length {s r : List Char} (h : skipToGt s = some r) :
    r.length < s.length := by
  induction s with
  | nil => simp [skipToGt] at h
  | cons c rest ih =>
    by_cases hc : c = '>'
    · simp [skipToGt, hc] at h
      simp [← h]
    · simp [skipToGt, hc] at h
      exact Nat.lt_succ_of_lt (ih h)

theorem takeTag_length {s r : List Char} (h : takeTag s = some r) :
    r.length < s.length := by
  cases s with
  | nil => simp [takeTag] at h
  | cons c rest =>
    by_cases hc : c = '>'
    · simp [takeTag, hc] at h
    · simp [takeTag, hc] at h
      exact Nat.lt_succ_of_lt (skipToGt_length h)

/-- Embedded from `re.sub(r"<[^>]+>", "", text)` in `_extract_text`: delete
every HTML-tag-shaped run, leaving lone `<` characters that match no tag. -/
def stripTags : List Char → List Char
  | [] => []
  | c :: rest =>
    if c = '<' then
      match h : takeTag rest with
      | some rem => stripTags rem
      | none => c :: stripTags rest
    else c :: stripTags rest
termination_by s => s.length
decreasing_by
  · exact Nat.lt_succ_of_lt (takeTag_length h)
  · exact Nat.lt_succ_self _
  · exact Nat.lt_succ_self _

/-- Embedded from `re.sub(r"\s+", " ", full_text)`: every maximal whitespace
run becomes a single space. -/
def squashSpaces : List Char → List Char
  | [] => []
  | c :: rest =>
    let r := squashSpaces rest
    if isPySpace c then
      match r with
      | ' ' :: _ => r
      | _ => ' ' :: r
    else c :: r

/-- Python `str.strip()`: drop leading and trailing whitespace. -/
def stripEnds (s : List Char) : List Char :=
  ((s.dropWhile isPySpace).reverse.dropWhile isPySpace).reverse

/-- Embedded from `_extract_text` (`embedding_service.py` lines 46-78): title
plus tag-stripped content (falling back to summary; empty strings are falsy),
joined with spaces, whitespace collapsed and stripped, truncated to 30000
characters. -/
def extract_text (e : EntryRow) : List Char :=
  let parts := [e.title] ++
    (if optStrTruthy e.content then [stripTags (e.content.getD [])]
     else if optStrTruthy e.summary then [stripTags (e.summary.getD [])]
     else [])
  let full_text := List.intercalate " ".toList parts
  let full_text := stripEnds (squashSpaces full_text)
  full_text.take 30000

/-- A character of a `\w+` word as `re.findall(r"\w+", text)` sees it. -/
def isWordChar (c : Char) : Bool := c.isAlphanum || c = '_'

/-- Count the maximal `\w+` runs; the flag records whether the previous
character belonged to a word. -/
def countWordRuns : List Char → Bool → ℕ
  | [], _ => 0
  | c :: rest, prev =>
    let w := isWordChar c
    (if w && !prev then 1 else 0) + countWordRuns rest w

/-- Embedded from `_calculate_word_count` (`embedding_service.py` lines
80-91): the number of `\w+` matches. -/
def calculate_word_count (s : List Char) : ℕ := countWordRuns s false

/-- A CJK character of `_detect_language`'s first pattern. -/
def isCJKChar (c : Char) : Bool :=
  (0x4e00 ≤ c.toNat && c.toNat ≤ 0x9fff) || (0x3040 ≤ c.toNat && c.toNat ≤ 0x309f)
    || (0x30a0 ≤ c.toNat && c.toNat ≤ 0x30ff)

/-- A hiragana character of `_detect_language`'s secondary pattern. -/
def isHiragana (c : Char) : Bool := 0x3040 ≤ c.toNat && c.toNat ≤ 0x309f

/-- Embedded from `_detect_language` (`embedding_service.py` lines 177-198). -/
def detect_language (text : List Char) : List Char :=
  if 10 < (text.filter isCJKChar).length then
    if text.any isHiragana then "ja".toList else "zh".toList
  else "en".toList

/-- Embedded from `_mark_failed` (`embedding_service.py` lines 168-175). -/
def mark_failed (e : EntryRow) (error : List Char) : EntryRow :=
  { e with embedding_status := EmbeddingStatus.failed, embedding_error := some error }

/-- Embedded from `generate_embedding` (`embedding_service.py` lines 93-166).
External effects become arguments: `entry0` is the database row (none when the
entry does not exist), `embed_result` the embedding client's response (error =
the exception's message), `insert_result` the Milvus insert's response.
Returns the Python boolean result and the row's final state.  There is no
retry of any kind in the body: a failure ends in `mark_failed`. -/
def generate_embedding (entry0 : Option EntryRow)
    (embed_result : Except (List Char) (List ℚ))
    (insert_result : Except (List Char) Unit) : Bool × Option EntryRow :=
  match entry0 with
  | none => (false, none)
  | some entry =>
    if entry.embedding_status = EmbeddingStatus.done then (true, some entry)
    else
      let entry := { entry with embedding_status := EmbeddingStatus.processing,
                                embedding_error := none }
      let text := extract_text entry
      let wc := calculate_word_count text
      if text = [] then
        (false, some (mark_failed entry "No text content to embed".toList))
      else
        match embed_result with
        | .error e => (false, some (mark_failed entry e))
        | .ok _ =>
          match insert_result with
          | .error e => (false, some (mark_failed entry e))
          | .ok _ =>
            (true, some { entry with embedding_status := EmbeddingStatus.done,
                                     word_count := wc, embedding_error := none })

/-! ## Theorems -/

/-- Claim C1: for every preference-signal update with an existing prior vector
(v0, c0) and article vector v1 with signal weight w, the pre-normalization
vector computed by `_update_preference_vector_locked` equals
`(v0*c0 + v1*|w|)/(c0+|w|)` componentwise with sample count `c0+|w|`; with no
prior vector of that polarity it is `v1*|w|` (normalization follows) with
sample count `|w|`. -/
theorem preference_update_pre_normalization (v0 v1 : List ℝ) (c0 w : ℝ) :
    update_pre_real (some (v0, c0)) v1 |w| = specMovingAverage v0 c0 v1 w ∧
    update_pre_real none v1 |w| = (v1.map (fun x => x * |w|), |w|) := by
  refine ⟨?_, rfl⟩
  unfold update_pre_real specMovingAverage
  simp [List.map_zipWith]

/-- Claim C3: starting from `error_count = 0`, consecutive failures leave the
status untouched and count up until the 5th failure, which trips the breaker
to `error`; one success resets the count to 0. -/
theorem circuit_breaker_trips_at_fifth_failure (cfg : EmbeddingState) (err : List Char)
    (h0 : cfg.error_count = 0) :
    (∀ k, k < CONSECUTIVE_FAILURES_THRESHOLD →
      (iterateFailures cfg err k).status = cfg.status ∧
      (iterateFailures cfg err k).error_count = k) ∧
    (iterateFailures cfg err CONSECUTIVE_FAILURES_THRESHOLD).status =
      VectorizationStatus.error ∧
    (∀ c : EmbeddingState, (reset_error_count c).error_count = 0) := by
  have hbelow : ∀ c : EmbeddingState, c.error_count + 1 < CONSECUTIVE_FAILURES_THRESHOLD →
      handle_embedding_error c err = { c with error_count := c.error_count + 1 } := by
    intro c hc
    unfold handle_embedding_error
    rw [if_neg (by omega)]
  have e1 : iterateFailures cfg err 1 = handle_embedding_error cfg err := rfl
  have h1 : iterateFailures cfg err 1 = { cfg with error_count := 1 } := by
    rw [e1, hbelow cfg (by simp [CONSECUTIVE_FAILURES_THRESHOLD, h0])]
    simp [h0]
  have e2 : iterateFailures cfg err 2 =
      handle_embedding_error (iterateFailures cfg err 1) err := rfl
  have h2 : iterateFailures cfg err 2 = { cfg with error_count := 2 } := by
    rw [e2, h1, hbelow _ (by simp [CONSECUTIVE_FAILURES_THRESHOLD])]
  have e3 : iterateFailures cfg err 3 =
      handle_embedding_error (iterateFailures cfg err 2) err := rfl
  have h3 : iterateFailures cfg err 3 = { cfg with error_count := 3 } := by
    rw [e3, h2, hbelow _ (by simp [CONSECUTIVE_FAILURES_THRESHOLD])]
  have e4 : iterateFailures cfg err 4 =
      handle_embedding_error (iterateFailures cfg err 3) err := rfl
  have h4 : iterateFailures cfg err 4 = { cfg with error_count := 4 } := by
    rw [e4, h3, hbelow _ (by simp [CONSECUTIVE_FAILURES_THRESHOLD])]
  refine ⟨?_, ?_, ?_⟩
  · intro k hk
    simp only [CONSECUTIVE_FAILURES_THRESHOLD] at hk
    interval_cases k
    · simpa [iterateFailures] using h0
    · simp [h1]
    · simp [h2]
    · simp [h3]
    · simp [h4]
  · show (iterateFailures cfg err 5).status = VectorizationStatus.error
    have e5 : iterateFailures cfg err 5 =
        handle_embedding_error (iterateFailures cfg err 4) err := rfl
    rw [e5, h4]
    unfold handle_embedding_error
    rw [if_pos (by simp [CONSECUTIVE_FAILURES_THRESHOLD])]
    simp [set_embedding_status, circuitBreakerMsg, optStrTruthy]
  · intro c
    by_cases hc : 0 < c.error_count
    · simp [reset_error_count, hc]
    · simp [reset_error_count, hc]
      omega

/-- Witness for C3 at a concrete idle configuration with a zero counter. -/
theorem circuit_breaker_trips_at_fifth_failure_witness :
    (∀ k, k < CONSECUTIVE_FAILURES_THRESHOLD →
      (iterateFailures ⟨VectorizationStatus.idle, 0, none, none⟩ "boom".toList k).status =
        VectorizationStatus.idle ∧
      (iterateFailures ⟨VectorizationStatus.idle, 0, none, none⟩ "boom".toList k).error_count
        = k) ∧
    (iterateFailures ⟨VectorizationStatus.idle, 0, none, none⟩ "boom".toList
      CONSECUTIVE_FAILURES_THRESHOLD).status = VectorizationStatus.error ∧
    (∀ c : EmbeddingState, (reset_error_count c).error_count = 0) :=
  circuit_breaker_trips_at_fifth_failure ⟨VectorizationStatus.idle, 0, none, none⟩
    "boom".toList rfl

/-- Claim C4: a status read in the `rebuilding` state reports (and stores)
`idle` iff `done + failed ≥ total` and `total > 0`; in every other case
(including `total = 0`) the state stays `rebuilding` and the config is
unchanged. -/
theorem rebuilding_autocompletes_iff (cfg : EmbeddingState) (p : ProgressCounts)
    (h : cfg.status = VectorizationStatus.rebuilding) :
    ((get_embedding_status_read cfg p).2 = VectorizationStatus.idle ↔
      (p.total ≤ p.done + p.failed ∧ 0 < p.total)) ∧
    (¬(p.total ≤ p.done + p.failed ∧ 0 < p.total) →
      get_embedding_status_read cfg p = (cfg, VectorizationStatus.rebuilding)) := by
  unfold get_embedding_status_read
  rw [if_pos h]
  by_cases hc : 0 < p.total ∧ p.total ≤ p.done + p.failed
  · rw [if_pos hc]
    constructor
    · simpa using And.intro hc.2 hc.1
    · intro hn
      exact absurd ⟨hc.2, hc.1⟩ hn
  · rw [if_neg hc]
    constructor
    · rw [h]
      constructor
      · intro hcontr
        cases hcontr
      · intro hcond
        exact absurd ⟨hcond.2, hcond.1⟩ hc
    · intro _
      rw [h]

/-- Witness for C4 at a rebuilding config with an empty corpus (total = 0):
the state stays `rebuilding`. -/
theorem rebuilding_autocompletes_iff_witness :
    ((get_embedding_status_read ⟨VectorizationStatus.rebuilding, 0, none, none⟩
        ⟨0, 0, 0, 0, 0⟩).2 = VectorizationStatus.idle ↔
      ((0 : ℕ) ≤ 0 + 0 ∧ (0 : ℕ) < 0)) ∧
    (¬((0 : ℕ) ≤ 0 + 0 ∧ (0 : ℕ) < 0) →
      get_embedding_status_read ⟨VectorizationStatus.rebuilding, 0, none, none⟩
        ⟨0, 0, 0, 0, 0⟩ =
        (⟨VectorizationStatus.rebuilding, 0, none, none⟩, VectorizationStatus.rebuilding)) :=
  rebuilding_autocompletes_iff ⟨VectorizationStatus.rebuilding, 0, none, none⟩
    ⟨0, 0, 0, 0, 0⟩ rfl

/-- The clamp-and-boost pipeline written via the spec-side blend: shared
algebraic bridge for the score theorems. -/
theorem blended_clamped_score_eq (cfg : PreferenceConfig) (p n t sb ab : ℚ) :
    blended_clamped_score cfg p n t sb ab =
      max 0 (min 100 (specBlendedScore cfg p n t + sb + ab)) := by
  simp only [blended_clamped_score, specBlendedScore]

/-- Counterexample to claim C2 as stated: with both preference vectors
present, no stats, and confidence 1, two entries with the same negative
similarity and strictly larger positive similarity both score 100 (the clamp
to [0, 100] flattens the score), so the score is not strictly increasing in
cos(entry, positive); for the same input the pure similarity-mapped value
`(raw + 1) / 2 * 100` is 120, not the returned 100, so at confidence 1 the
score does not equal that value either. -/
theorem score_monotonicity_counterexample :
    dotQ [1/2, 9/10] [1, 0] < dotQ [3/5, 9/10] [1, 0] ∧
    dotQ [1/2, 9/10] [0, -1] = dotQ [3/5, 9/10] [0, -1] ∧
    min 1 (((5 : ℚ) + 5) / preference_config.confidence_threshold) = 1 ∧
    calculate_score preference_config (some [1/2, 9/10]) (some ⟨"f".toList, none⟩)
      ⟨some ⟨[1, 0], 5⟩, some ⟨[0, -1], 5⟩⟩ none = (100, none) ∧
    calculate_score preference_config (some [3/5, 9/10]) (some ⟨"f".toList, none⟩)
      ⟨some ⟨[1, 0], 5⟩, some ⟨[0, -1], 5⟩⟩ none = (100, none) ∧
    (dotQ [1/2, 9/10] [1, 0] - dotQ [1/2, 9/10] [0, -1] + 1) / 2 * 100 ≠ 100 := by
  refine ⟨by norm_num [dotQ], by norm_num [dotQ], by norm_num [preference_config],
    ?_, ?_, by norm_num [dotQ]⟩
  · simp only [calculate_score]
    norm_num [dotQ, blended_clamped_score, preference_config, round1, roundHalfEven]
    simp
  · simp only [calculate_score]
    norm_num [dotQ, blended_clamped_score, preference_config, round1, roundHalfEven]
    simp

/-- Claim C2 (amended): with both preference vectors present and no affinity
statistics, the clamped blended score (the value before the final one-decimal
rounding) is strictly increasing in the positive similarity and strictly
decreasing in the negative similarity whenever the confidence is positive and
the compared blends stay inside the clamp bounds [0, 100]; zero total samples
(confidence 0) always yields the returned score 50; at confidence 1 the
returned score is the pure similarity-mapped value clamped to [0, 100] and
rounded to one decimal. -/
theorem score_monotonicity_amended :
    (∀ (cfg : PreferenceConfig) (p q n t : ℚ), 0 < cfg.confidence_threshold → 0 < t →
      p < q → 0 ≤ specBlendedScore cfg p n t → specBlendedScore cfg q n t ≤ 100 →
      blended_clamped_score cfg p n t 0 0 < blended_clamped_score cfg q n t 0 0) ∧
    (∀ (cfg : PreferenceConfig) (p n m t : ℚ), 0 < cfg.confidence_threshold → 0 < t →
      n < m → 0 ≤ specBlendedScore cfg p m t → specBlendedScore cfg p n t ≤ 100 →
      blended_clamped_score cfg p m t 0 0 < blended_clamped_score cfg p n t 0 0) ∧
    (∀ (cfg : PreferenceConfig) (emb : List ℚ) (entry : EntryInfo) (pv nv : List ℚ),
      calculate_score cfg (some emb) (some entry)
        ⟨some ⟨pv, 0⟩, some ⟨nv, 0⟩⟩ none = (50, none)) ∧
    (∀ (cfg : PreferenceConfig) (emb : List ℚ) (entry : EntryInfo) (pv nv : List ℚ)
        (c1 c2 : ℚ), 0 < cfg.confidence_threshold → cfg.confidence_threshold ≤ c1 + c2 →
      calculate_score cfg (some emb) (some entry)
        ⟨some ⟨pv, c1⟩, some ⟨nv, c2⟩⟩ none =
        (round1 (max 0 (min 100 ((dotQ emb pv - dotQ emb nv + 1) / 2 * 100))), none)) := by
  refine ⟨?_, ?_, ?_, ?_⟩
  · intro cfg p q n t hτ ht hpq hlo hhi
    have hc : 0 < min 1 (t / cfg.confidence_threshold) := lt_min one_pos (div_pos ht hτ)
    have hlt : specBlendedScore cfg p n t < specBlendedScore cfg q n t := by
      have hpos := mul_pos (mul_pos (sub_pos.mpr hpq) (show (0:ℚ) < 50 by norm_num)) hc
      have hdiff : specBlendedScore cfg q n t - specBlendedScore cfg p n t =
          (q - p) * 50 * min 1 (t / cfg.confidence_threshold) := by
        simp only [specBlendedScore]
        ring
      linarith
    rw [blended_clamped_score_eq, blended_clamped_score_eq, add_zero, add_zero,
      add_zero, add_zero]
    rw [min_eq_right (le_trans (le_of_lt hlt) hhi), max_eq_right hlo,
      min_eq_right hhi, max_eq_right (le_trans hlo (le_of_lt hlt))]
    exact hlt
  · intro cfg p n m t hτ ht hnm hlo hhi
    have hc : 0 < min 1 (t / cfg.confidence_threshold) := lt_min one_pos (div_pos ht hτ)
    have hlt : specBlendedScore cfg p m t < specBlendedScore cfg p n t := by
      have hpos := mul_pos (mul_pos (sub_pos.mpr hnm) (show (0:ℚ) < 50 by norm_num)) hc
      have hdiff : specBlendedScore cfg p n t - specBlendedScore cfg p m t =
          (m - n) * 50 * min 1 (t / cfg.confidence_threshold) := by
        simp only [specBlendedScore]
        ring
      linarith
    rw [blended_clamped_score_eq, blended_clamped_score_eq, add_zero, add_zero,
      add_zero, add_zero]
    rw [min_eq_right (le_trans (le_of_lt hlt) hhi), max_eq_right hlo,
      min_eq_right hhi, max_eq_right (le_trans hlo (le_of_lt hlt))]
    exact hlt
  · intro cfg emb entry pv nv
    simp only [calculate_score]
    rw [if_neg (by simp)]
    have hb : blended_clamped_score cfg (dotQ emb pv) (dotQ emb nv) (0 + 0) 0 0 = 50 := by
      rw [blended_clamped_score_eq]
      simp only [specBlendedScore]
      norm_num
    rw [hb]
    norm_num [round1, roundHalfEven]
  · intro cfg emb entry pv nv c1 c2 hτ hle
    simp only [calculate_score]
    rw [if_neg (by simp)]
    have hconf : min 1 ((c1 + c2) / cfg.confidence_threshold) = 1 :=
      min_eq_left ((one_le_div hτ).mpr hle)
    rw [blended_clamped_score_eq]
    simp only [specBlendedScore, hconf]
    norm_num

/-- Witness for the amended C2 at concrete similarities 0 < 1/10 with 5 of 10
confidence samples: the unclamped blends are 50 and 52.5, and the clamped
blended score strictly increases. -/
theorem score_monotonicity_amended_witness :
    blended_clamped_score preference_config 0 0 5 0 0 <
      blended_clamped_score preference_config (1/10) 0 5 0 0 :=
  score_monotonicity_amended.1 preference_config 0 (1/10) 0 5
    (by norm_num [preference_config]) (by norm_num) (by norm_num)
    (by norm_num [specBlendedScore, preference_config])
    (by norm_num [specBlendedScore, preference_config])

/-- The squared norm of a vector is nonnegative. -/
theorem listNormSq_nonneg (v : List ℝ) : 0 ≤ listNormSq v := by
  induction v with
  | nil => simp [listNormSq]
  | cons x xs ih =>
    simp only [listNormSq, List.map, List.sum_cons] at ih ⊢
    nlinarith [mul_self_nonneg x]

/-- Dividing every component by `c` divides the squared norm by `c ^ 2`
(unconditionally, with Lean's zero-division conventions). -/
theorem listNormSq_map_div (v : List ℝ) (c : ℝ) :
    listNormSq (v.map (fun x => x / c)) = listNormSq v / c ^ 2 := by
  induction v with
  | nil => simp [listNormSq]
  | cons x xs ih =>
    simp only [listNormSq, List.map, List.sum_cons] at ih ⊢
    rw [ih, div_mul_div_comm, ← pow_two c, div_add_div_same]

/-- Counterexample to claim C5 as stated: the first signal for an article
vector of tiny but nonzero magnitude (`1e-9`) is stored unnormalized — the
code's guard skips normalization for any norm `≤ 1e-8`, not only for the
exactly-zero vector — so the stored embedding's norm is far from 1 although
the accumulated vector is not zero. -/
theorem preference_unit_norm_counterexample :
    update_preference_vector_locked none [(1 : ℝ) / 10 ^ 9] 1 = ([(1 : ℝ) / 10 ^ 9 * 1], 1) ∧
    (1 : ℝ) / 10 ^ 9 * 1 ≠ 0 ∧
    listNormSq [(1 : ℝ) / 10 ^ 9 * 1] ≠ 1 := by
  have hpre : update_pre_real none [(1 : ℝ) / 10 ^ 9] 1 = ([(1 : ℝ) / 10 ^ 9 * 1], 1) := by
    simp [update_pre_real]
  have hsq : listNormSq [(1 : ℝ) / 10 ^ 9 * 1] = ((1 : ℝ) / 10 ^ 9) * ((1 : ℝ) / 10 ^ 9) := by
    simp [listNormSq]
  have hsqrt : Real.sqrt (listNormSq [(1 : ℝ) / 10 ^ 9 * 1]) ≤ NORM_EPS := by
    rw [hsq, Real.sqrt_mul_self (by norm_num : (0 : ℝ) ≤ 1 / 10 ^ 9)]
    norm_num [NORM_EPS]
  refine ⟨?_, by norm_num, by rw [hsq]; norm_num⟩
  unfold update_preference_vector_locked
  rw [hpre, if_neg (by simpa using not_lt.mpr hsqrt)]

/-- Claim C5 (amended): after every preference-vector update the stored
embedding has unit norm whenever the pre-normalization vector's norm exceeds
the `1e-8` guard; when the norm is at most `1e-8` (which includes, but is not
limited to, the exactly-zero vector) the accumulated vector is stored
unnormalized. -/
theorem preference_unit_norm_amended :
    (∀ (current : Option (List ℝ × ℝ)) (article : List ℝ) (w : ℝ),
      NORM_EPS < Real.sqrt (listNormSq (update_pre_real current article w).1) →
      listNormSq (update_preference_vector_locked current article w).1 = 1) ∧
    (∀ (current : Option (List ℝ × ℝ)) (article : List ℝ) (w : ℝ),
      Real.sqrt (listNormSq (update_pre_real current article w).1) ≤ NORM_EPS →
      update_preference_vector_locked current article w =
        update_pre_real current article w) := by
  constructor
  · intro current article w h
    have heps : (0 : ℝ) < NORM_EPS := by norm_num [NORM_EPS]
    have hsqrt : 0 < Real.sqrt (listNormSq (update_pre_real current article w).1) :=
      lt_trans heps h
    have hsq : 0 < listNormSq (update_pre_real current article w).1 := by
      by_contra hc
      push_neg at hc
      have : listNormSq (update_pre_real current article w).1 = 0 :=
        le_antisymm hc (listNormSq_nonneg _)
      rw [this, Real.sqrt_zero] at hsqrt
      exact lt_irrefl 0 hsqrt
    unfold update_preference_vector_locked
    rw [if_pos h]
    rw [listNormSq_map_div, Real.sq_sqrt (le_of_lt hsq)]
    exact div_self (ne_of_gt hsq)
  · intro current article w h
    unfold update_preference_vector_locked
    rw [if_neg (not_lt.mpr h)]

/-- Witness for the amended C5 at the article vector `[2]` with weight 1: the
pre-normalization vector `[2]` has norm 2 above the guard, and the stored
vector has unit squared norm. -/
theorem preference_unit_norm_amended_witness :
    listNormSq (update_preference_vector_locked none [(2 : ℝ)] 1).1 = 1 :=
  preference_unit_norm_amended.1 none [(2 : ℝ)] 1 (by
    have hpre : update_pre_real none [(2 : ℝ)] 1 = ([(2 : ℝ) * 1], 1) := by
      simp [update_pre_real]
    rw [hpre]
    have hsq : listNormSq [(2 : ℝ) * 1] = 2 * 2 := by
      simp [listNormSq]
    rw [hsq, show (2 : ℝ) * 2 = 2 ^ 2 by norm_num,
      Real.sqrt_sq (by norm_num : (0 : ℝ) ≤ 2)]
    norm_num [NORM_EPS])

/-- Counterexample to claim C6 as stated: the two delete operations do not
retry.  On a textbook "collection not found" error (code 100) the entry
delete and the bulk preference delete surface the error after a single
attempt, with no handle refresh and no retry. -/
theorem delete_calls_do_not_retry_counterexample :
    is_collection_not_found_error ⟨100, "collection not found".toList⟩ = true ∧
    delete_entry_embedding (.error ⟨100, "collection not found".toList⟩) =
      (.error (.milvus ⟨100, "collection not found".toList⟩), 1) ∧
    delete_user_preferences (.error ⟨100, "collection not found".toList⟩) =
      (.error (.milvus ⟨100, "collection not found".toList⟩), 1) := by
  refine ⟨?_, rfl, rfl⟩
  simp [is_collection_not_found_error]

/-- Claim C6 (amended): the entry insert and the preference upsert, upon a
collection-not-found error, refresh the handle and retry the insert exactly
once before surfacing its outcome (raising a runtime error instead when the
refreshed handle shows no collection); any other error class surfaces without
retry; the entry delete and the bulk preference delete issue a single attempt
and surface every error, not-found included, without retry. -/
theorem mutating_calls_retry_amended :
    (∀ e : MilvusErr, is_collection_not_found_error e = true →
      insert_entry_embedding (.error e) true (.ok ()) = (.ok (), 2) ∧
      (∀ e2 : MilvusErr,
        insert_entry_embedding (.error e) true (.error e2) = (.error (.milvus e2), 2)) ∧
      (∀ r2 : Except MilvusErr Unit,
        insert_entry_embedding (.error e) false r2 = (.error .runtimeMissing, 1)) ∧
      upsert_user_preference (.error e) true (.ok ()) = (.ok (), 2) ∧
      (∀ e2 : MilvusErr,
        upsert_user_preference (.error e) true (.error e2) = (.error (.milvus e2), 2)) ∧
      (∀ r2 : Except MilvusErr Unit,
        upsert_user_preference (.error e) false r2 = (.error .runtimeMissing, 1))) ∧
    (∀ (e : MilvusErr) (h : Bool) (r2 : Except MilvusErr Unit),
      is_collection_not_found_error e = false →
      insert_entry_embedding (.error e) h r2 = (.error (.milvus e), 1) ∧
      upsert_user_preference (.error e) h r2 = (.error (.milvus e), 1)) ∧
    (∀ e : MilvusErr,
      delete_entry_embedding (.error e) = (.error (.milvus e), 1) ∧
      delete_user_preferences (.error e) = (.error (.milvus e), 1)) ∧
    (∀ (h : Bool) (r2 : Except MilvusErr Unit),
      insert_entry_embedding (.ok ()) h r2 = (.ok (), 1) ∧
      upsert_user_preference (.ok ()) h r2 = (.ok (), 1) ∧
      delete_entry_embedding (.ok ()) = (.ok (), 1) ∧
      delete_user_preferences (.ok ()) = (.ok (), 1)) := by
  refine ⟨?_, ?_, ?_, ?_⟩
  · intro e he
    refine ⟨?_, ?_, ?_, ?_, ?_, ?_⟩ <;>
      first
        | simp [insert_entry_embedding, he]
        | (intro x; simp [insert_entry_embedding, upsert_user_preference, he])
        | simp [upsert_user_preference, he]
  · intro e h r2 he
    exact ⟨by simp [insert_entry_embedding, he], by simp [upsert_user_preference, he]⟩
  · intro e
    exact ⟨rfl, rfl⟩
  · intro h r2
    exact ⟨rfl, rfl, rfl, rfl⟩

/-- Witness for the amended C6 on a concrete code-100 error: the insert
retries once and succeeds in two attempts. -/
theorem mutating_calls_retry_amended_witness :
    insert_entry_embedding (.error ⟨100, "gone".toList⟩) true (.ok ()) = (.ok (), 2) :=
  (mutating_calls_retry_amended.1 ⟨100, "gone".toList⟩
    (by simp [is_collection_not_found_error])).1

/-- How `escape_string` acts on one leading backslash. -/
theorem escape_string_cons_backslash (s : List Char) :
    escape_string ('\\' :: s) = '\\' :: '\\' :: escape_string s := by
  simp [escape_string, replaceChar]

/-- How `escape_string` acts on one leading double quote. -/
theorem escape_string_cons_quote (s : List Char) :
    escape_string ('"' :: s) = '\\' :: '"' :: escape_string s := by
  simp [escape_string, replaceChar]

/-- Any other character passes through `escape_string` unchanged. -/
theorem escape_string_cons_other (c : Char) (s : List Char)
    (h1 : c ≠ '\\') (h2 : c ≠ '"') :
    escape_string (c :: s) = c :: escape_string s := by
  simp [escape_string, replaceChar, h1, h2]

/-- An unescaped quote closes the literal at once. -/
theorem parseStringLiteral_quote (rest : List Char) :
    parseStringLiteral ('"' :: rest) = some ([], rest) := by
  rw [parseStringLiteral.eq_def]
  simp

/-- A backslash makes the next character literal. -/
theorem parseStringLiteral_backslash (e : Char) (rest : List Char) :
    parseStringLiteral ('\\' :: e :: rest) =
      (parseStringLiteral rest).map (fun p => (e :: p.1, p.2)) := by
  rw [parseStringLiteral.eq_def]
  simp

/-- Any other character is consumed as literal text. -/
theorem parseStringLiteral_other (c : Char) (rest : List Char)
    (h1 : c ≠ '"') (h2 : c ≠ '\\') :
    parseStringLiteral (c :: rest) =
      (parseStringLiteral rest).map (fun p => (c :: p.1, p.2)) := by
  rw [parseStringLiteral.eq_def]
  simp [h1, h2]

/-- The escaped text parses back to the original value: the parser consumes
exactly the escaped text, yields the literal unchanged, and stops at the
first unescaped quote. -/
theorem parse_escape_string (s rest : List Char) :
    parseStringLiteral (escape_string s ++ '"' :: rest) = some (s, rest) := by
  induction s with
  | nil =>
    rw [show escape_string [] = [] from rfl, List.nil_append, parseStringLiteral_quote]
  | cons c s ih =>
    by_cases h1 : c = '\\'
    · subst h1
      rw [escape_string_cons_backslash, List.cons_append, List.cons_append,
        parseStringLiteral_backslash, ih]
      rfl
    · by_cases h2 : c = '"'
      · subst h2
        rw [escape_string_cons_quote, List.cons_append, List.cons_append,
          parseStringLiteral_backslash, ih]
        rfl
      · rw [escape_string_cons_other c s h1 h2, List.cons_append,
          parseStringLiteral_other c _ h2 h1, ih]
        rfl

/-- Claim C7: every string value placed into the `id == "..."` filter is
neutralized by `_escape_string`: the resulting expression is exactly one
comparison whose literal is the original value, so a record matches iff its
id literally equals the value — a quote/backslash payload can never widen the
match. -/
theorem escaped_filter_matches_only_literal (value field_id : List Char) :
    evalIdFilter (build_id_filter value) field_id = some (decide (field_id = value)) := by
  unfold evalIdFilter build_id_filter
  have hlen : ("id == \"".toList).length = 7 := by decide
  rw [List.append_assoc]
  rw [if_pos (by rw [← hlen, List.take_left])]
  rw [← hlen, List.drop_left, parse_escape_string]

/-- Witness for C7 at the injection payload of the spec: the filter built for
the payload value matches a record with a different id not at all. -/
theorem escaped_filter_matches_only_literal_witness :
    evalIdFilter (build_id_filter "\" OR 1==1 OR id==\"".toList) "x".toList =
      some false := by
  rw [escaped_filter_matches_only_literal]
  decide

/-- Claim C8: `generate_embedding` returns success and leaves the row alone
when the status is already `done` (idempotent against redelivery, independent
of the provider and store responses); empty extracted text marks the row
`failed` with the explicit reason; any exception from the embedding client or
the vector store marks the row `failed` with the error message — the function
itself never retries. -/
theorem generate_embedding_error_handling :
    (∀ (e : EntryRow) (er : Except (List Char) (List ℚ)) (ir : Except (List Char) Unit),
      e.embedding_status = EmbeddingStatus.done →
      generate_embedding (some e) er ir = (true, some e)) ∧
    (∀ (e : EntryRow) (er : Except (List Char) (List ℚ)) (ir : Except (List Char) Unit),
      e.embedding_status ≠ EmbeddingStatus.done →
      extract_text e = [] →
      generate_embedding (some e) er ir =
        (false,
          some { e with
                  embedding_status := EmbeddingStatus.failed,
                  embedding_error := some "No text content to embed".toList })) ∧
    (∀ (e : EntryRow) (msg : List Char) (ir : Except (List Char) Unit),
      e.embedding_status ≠ EmbeddingStatus.done →
      extract_text e ≠ [] →
      generate_embedding (some e) (.error msg) ir =
        (false,
          some { e with
                  embedding_status := EmbeddingStatus.failed,
                  embedding_error := some msg })) ∧
    (∀ (e : EntryRow) (v : List ℚ) (msg : List Char),
      e.embedding_status ≠ EmbeddingStatus.done →
      extract_text e ≠ [] →
      generate_embedding (some e) (.ok v) (.error msg) =
        (false,
          some { e with
                  embedding_status := EmbeddingStatus.failed,
                  embedding_error := some msg })) := by
  refine ⟨?_, ?_, ?_, ?_⟩
  · intro e er ir hdone
    simp [generate_embedding, hdone]
  · intro e er ir hdone hext
    have hext2 : extract_text
        { e with
            embedding_status := EmbeddingStatus.processing,
            embedding_error := none } = [] := hext
    simp only [generate_embedding]
    rw [if_neg hdone, if_pos hext2]
    rfl
  · intro e msg ir hdone hext
    have hext2 : extract_text
        { e with
            embedding_status := EmbeddingStatus.processing,
            embedding_error := none } ≠ [] := hext
    simp only [generate_embedding]
    rw [if_neg hdone, if_neg hext2]
    rfl
  · intro e v msg hdone hext
    have hext2 : extract_text
        { e with
            embedding_status := EmbeddingStatus.processing,
            embedding_error := none } ≠ [] := hext
    simp only [generate_embedding]
    rw [if_neg hdone, if_neg hext2]
    rfl

/-- Witness for C8 at concrete rows: a `done` row is returned untouched even
when the provider would fail; an empty pending row fails with the explicit
reason; a nonempty pending row fails with the provider's message. -/
theorem generate_embedding_error_handling_witness :
    generate_embedding
        (some ⟨"t".toList, none, none, "f".toList, none, EmbeddingStatus.done, none, 0⟩)
        (.error "provider down".toList) (.ok ()) =
      (true, some ⟨"t".toList, none, none, "f".toList, none, EmbeddingStatus.done, none, 0⟩) ∧
    generate_embedding
        (some ⟨[], none, none, "f".toList, none, EmbeddingStatus.pending, none, 0⟩)
        (.ok [1]) (.ok ()) =
      (false, some ⟨[], none, none, "f".toList, none, EmbeddingStatus.failed,
        some "No text content to embed".toList, 0⟩) ∧
    generate_embedding
        (some ⟨"t".toList, none, none, "f".toList, none, EmbeddingStatus.pending, none, 0⟩)
        (.error "provider down".toList) (.ok ()) =
      (false, some ⟨"t".toList, none, none, "f".toList, none, EmbeddingStatus.failed,
        some "provider down".toList, 0⟩) :=
  ⟨generate_embedding_error_handling.1 _ _ _ rfl,
   generate_embedding_error_handling.2.1 _ _ _ (by decide) (by decide),
   generate_embedding_error_handling.2.2.1 _ _ _ (by decide) (by decide)⟩

/-- Claim C9: the signal weights are fixed at like = +1, dislike = -1,
bookmark = +0.7 (and these are the only signal types); a signal whose target
article has no stored vector returns silently and changes neither the
preference vectors nor the statistics. -/
theorem signal_weights_and_missing_vector_noop :
    signalWeight "like".toList = some 1 ∧
    signalWeight "dislike".toList = some (-1) ∧
    signalWeight "bookmark".toList = some (7/10) ∧
    SIGNAL_WEIGHTS.length = 3 ∧
    (∀ (signal_type : List Char) (w : ℚ) (entry : Option EntryRowMeta)
        (st : PrefServiceState),
      signalWeight signal_type = some w →
      handle_preference_signal signal_type none entry st = .ok st) := by
  refine ⟨rfl, rfl, rfl, rfl, ?_⟩
  intro signal_type w entry st hw
  simp only [handle_preference_signal, hw]

/-- Witness for C9: a like for a not-yet-embedded article is a silent no-op
on the empty preference state. -/
theorem signal_weights_and_missing_vector_noop_witness :
    handle_preference_signal "like".toList none none ⟨⟨none, none⟩, none⟩ =
      .ok ⟨⟨none, none⟩, none⟩ :=
  signal_weights_and_missing_vector_noop.2.2.2.2 "like".toList 1 none
    ⟨⟨none, none⟩, none⟩ rfl

/-- Claim C10: a signal type outside the weight table makes
`handle_preference_signal` raise `ValueError` with the invalid-signal message
before reading or modifying anything: the outcome is that error for every
article lookup result and every prior state, which stays unchanged. -/
theorem invalid_signal_type_raises (signal_type : List Char)
    (h : signalWeight signal_type = none) :
    ∀ (emb : Option (List ℝ)) (entry : Option EntryRowMeta) (st : PrefServiceState),
      handle_preference_signal signal_type emb entry st =
        .error ("Invalid signal type: ".toList ++ signal_type) := by
  intro emb entry st
  simp only [handle_preference_signal, h]

/-- Witness for C10 at the unknown signal type `unlike`. -/
theorem invalid_signal_type_raises_witness :
    handle_preference_signal "unlike".toList none none ⟨⟨none, none⟩, none⟩ =
      .error ("Invalid signal type: ".toList ++ "unlike".toList) :=
  invalid_signal_type_raises "unlike".toList rfl none none ⟨⟨none, none⟩, none⟩

end Glean
